import Mathlib

/-!
# Verification of the Cursor trial-reset tool (`reset.py`)

Shallow embedding of the single source file `src/reset.py`.  The program is a
linear procedure: resolve a platform-specific configuration path, ensure the
parent directory exists, back the file up with a timestamped copy, load the
JSON document (or start from an empty one), overwrite three telemetry keys
with fresh random values, and write the document back.

The embedding makes all the effects explicit:
* the file system is a finite map from path strings to file data
  (content plus an abstract metadata token, to model `shutil.copy2`);
* file content is either a parseable JSON document or raw non-JSON text
  (`json.load` succeeds exactly on the former);
* the random source (`os.urandom`) and the clock (`datetime.now`) are inputs;
* Python exceptions become an error type distinguishing `OSError`,
  `TypeError` and `json.JSONDecodeError`.
-/

/-- Lowercase hexadecimal digit characters, as produced by `bytes.hex()`
and by `uuid.UUID.__str__`. -/
def hexChars : List Char :=
  "0123456789abcdef".data

/-- The hex digit for a nibble; the `% 16` makes the function total, and it is
the identity on the nibbles (< 16) coming from actual bytes. -/
def hexDigit (n : Nat) : Char :=
  hexChars.getD (n % 16) '0'

/-- A decimal digit character; `% 10` makes it total. -/
def digitChar (n : Nat) : Char :=
  hexDigit (n % 10)

/-- `bytes.hex()` on a byte string: two lowercase hex digits per byte
(high nibble first).  (`src/reset.py` line 80: `os.urandom(32).hex()`.) -/
def bytesHexChars : List Nat → List Char
  | [] => []
  | b :: bs => hexDigit (b / 16) :: hexDigit (b % 16) :: bytesHexChars bs

/-- `bytes.hex()` as a string. -/
def bytesHex (bs : List Nat) : String :=
  String.mk (bytesHexChars bs)

/-- `str(uuid.uuid4())` given the 16 bytes drawn from `os.urandom(16)`:
byte 6 is clamped to version 4 (`(b6 & 0x0f) | 0x40`, i.e. `b6 % 16 + 64`),
byte 8 to the RFC 4122 variant (`(b8 & 0x3f) | 0x80`, i.e. `b8 % 64 + 128`),
and the bytes are hex-encoded in the 8-4-4-4-12 dashed layout.
Any list that is not exactly 16 bytes yields `[]` (Python would raise;
the tool always passes 16 bytes). -/
def uuid4Chars (bs : List Nat) : List Char :=
  match bs with
  | [b0, b1, b2, b3, b4, b5, b6, b7, b8, b9, b10, b11, b12, b13, b14, b15] =>
      bytesHexChars [b0, b1, b2, b3] ++ '-' ::
      bytesHexChars [b4, b5] ++ '-' ::
      bytesHexChars [b6 % 16 + 64, b7] ++ '-' ::
      bytesHexChars [b8 % 64 + 128, b9] ++ '-' ::
      bytesHexChars [b10, b11, b12, b13, b14, b15]
  | _ => []

/-- `str(uuid.uuid4())` as a string. -/
def uuid4 (bs : List Nat) : String :=
  String.mk (uuid4Chars bs)

/-- A wall-clock instant as `datetime.now()` exposes it to
`strftime('%Y%m%d_%H%M%S')`. -/
structure DateTime where
  year : Nat
  month : Nat
  day : Nat
  hour : Nat
  minute : Nat
  second : Nat
deriving DecidableEq, Repr

/-- Two zero-padded decimal digits, as `strftime` prints `%m`, `%d`, `%H`,
`%M`, `%S` (their values never exceed two digits in a valid `datetime`). -/
def pad2 (n : Nat) : List Char :=
  [digitChar (n / 10), digitChar (n % 10)]

/-- Four zero-padded decimal digits, as `strftime` prints `%Y`
(a `datetime` year is between 1 and 9999). -/
def pad4 (n : Nat) : List Char :=
  [digitChar (n / 1000), digitChar (n / 100), digitChar (n / 10), digitChar (n % 10)]

/-- `datetime.now().strftime('%Y%m%d_%H%M%S')` (`src/reset.py` line 30). -/
def tsChars (t : DateTime) : List Char :=
  pad4 t.year ++ pad2 t.month ++ pad2 t.day ++ '_' ::
  (pad2 t.hour ++ pad2 t.minute ++ pad2 t.second)

/-- The timestamp string of a backup file name. -/
def tsString (t : DateTime) : String :=
  String.mk (tsChars t)

/-- `f"{file_path}.backup_{datetime.now().strftime('%Y%m%d_%H%M%S')}"`
(`src/reset.py` line 30). -/
def backupName (p : String) (t : DateTime) : String :=
  p ++ ".backup_" ++ tsString t

/-- JSON values, the data `json.load` returns and `json.dump` writes.
Objects are association lists in document order; `json.load` produces
unique keys. -/
inductive JVal where
  | jnull
  | jbool (b : Bool)
  | jnum (n : Int)
  | jstr (s : String)
  | jarr (xs : List JVal)
  | jobj (kvs : List (String × JVal))

/-- Whether a JSON value is an object (a Python `dict`). -/
def JVal.isObj : JVal → Bool
  | .jobj _ => true
  | _ => false

/-- File content: either bytes that parse as the JSON value `v`, or raw
text that is not valid JSON (on which `json.load` raises). -/
inductive Content where
  | jsonDoc (v : JVal)
  | rawText (s : String)

/-- A file: its content together with an abstract metadata token
(timestamps, permissions — what `shutil.copy2` preserves). -/
structure FileData where
  content : Content
  meta : Nat

/-- First-occurrence lookup in an association list. -/
def lookupKey {α : Type} : List (String × α) → String → Option α
  | [], _ => none
  | (k', v) :: rest, k => if k' = k then some v else lookupKey rest k

/-- Python `d[k] = v` on a `dict` (and the file map, a `dict`-like store):
replace the first binding of `k`, or append a new binding at the end. -/
def setEntry {α : Type} : List (String × α) → String → α → List (String × α)
  | [], k, v => [(k, v)]
  | (k', v') :: rest, k, v =>
      if k' = k then (k, v) :: rest else (k', v') :: setEntry rest k v

/-- The file-system state: files by absolute path, plus the set of existing
directories (only their presence matters to the tool). -/
structure FS where
  files : List (String × FileData)
  dirs : List String

/-- Read a file, `none` when the path does not exist. -/
def FS.getFile (fs : FS) (p : String) : Option FileData :=
  lookupKey fs.files p

/-- `os.path.exists` / `Path.exists`. -/
def FS.fileExists (fs : FS) (p : String) : Bool :=
  (fs.getFile p).isSome

/-- Create or overwrite the file at `p`. -/
def FS.setFile (fs : FS) (p : String) (fd : FileData) : FS :=
  { fs with files := setEntry fs.files p fd }

/-- `Path.mkdir(parents=True, exist_ok=True)`: record the directory,
idempotently (`src/reset.py` line 67). -/
def FS.mkdirp (fs : FS) (d : String) : FS :=
  { fs with dirs := if d ∈ fs.dirs then fs.dirs else fs.dirs ++ [d] }

/-- The characters of `Path(p).parent`: everything before the last `/`. -/
def parentChars (cs : List Char) : List Char :=
  ((cs.reverse.dropWhile (fun c => c ≠ '/')).drop 1).reverse

/-- `Path(p).parent` (`src/reset.py` line 67). -/
def parentDir (p : String) : String :=
  String.mk (parentChars p.data)

/-- The environment the tool reads: `platform.system()`, `os.getenv("APPDATA")`
(absent when the variable is unset) and `os.path.expanduser("~")`. -/
structure Env where
  system : String
  appdata : Option String
  home : String
deriving DecidableEq, Repr

/-- The Python exceptions the tool can raise, by class. -/
inductive PyError where
  | osError (msg : String)
  | typeError (msg : String)
  | jsonDecodeError
deriving DecidableEq, Repr

/-- `backup_file` (`src/reset.py` lines 22-31): if the path exists, copy the
file — content and metadata, as `shutil.copy2` does — to
`<path>.backup_<timestamp>`; otherwise do nothing. -/
def backup_file (fs : FS) (file_path : String) (now : DateTime) : FS :=
  match fs.getFile file_path with
  | some fd => fs.setFile (backupName file_path now) fd
  | none => fs

/-- `get_storage_file` (`src/reset.py` lines 34-52).  On Windows,
`Path(os.getenv("APPDATA"))` raises `TypeError` when the variable is unset
(`Path(None)`); unknown systems raise `OSError`. -/
def get_storage_file (env : Env) : Except PyError String :=
  if env.system = "Windows" then
    match env.appdata with
    | none => .error (.typeError "argument should be a str or an os.PathLike object, not NoneType")
    | some appdata => .ok (appdata ++ "/Cursor/User/globalStorage/storage.json")
  else if env.system = "Darwin" then
    .ok (env.home ++ "/Library/Application Support/Cursor/User/globalStorage/storage.json")
  else if env.system = "Linux" then
    .ok (env.home ++ "/.config/Cursor/User/globalStorage/storage.json")
  else
    .error (.osError ("Unsupported operating system: " ++ env.system))

/-- Everything a run of `reset_cursor_id` consumes from the outside world:
the environment, the clock value used for the backup timestamp, the bytes
drawn by the three random generators (`os.urandom(32)` twice,
`os.urandom(16)` inside `uuid.uuid4()`), and the metadata token the OS
assigns to the rewritten file. -/
structure ResetInput where
  env : Env
  now : DateTime
  machineBytes : List Nat
  macBytes : List Nat
  uuidBytes : List Nat
  writeMeta : Nat

/-- The three telemetry keys, in assignment order (`src/reset.py` 85-87). -/
def telemetryKeys : List String :=
  ["telemetry.machineId", "telemetry.macMachineId", "telemetry.devDeviceId"]

/-- `reset_cursor_id` (`src/reset.py` lines 55-102): resolve the path, make
the parent directory, back the file up, load or initialize the document,
generate the three identifiers, merge them in, write the document back and
return the identifiers (the printed values).  The result pairs the final
file-system state with either the identifiers or the exception that
aborted the run. -/
def reset_cursor_id (inp : ResetInput) (fs : FS) :
    FS × Except PyError (String × String × String) :=
  match get_storage_file inp.env with
  | .error e => (fs, .error e)
  | .ok storage_file =>
    let fs1 := fs.mkdirp (parentDir storage_file)
    let fs2 := backup_file fs1 storage_file inp.now
    let dataE : Except PyError JVal :=
      match fs2.getFile storage_file with
      | none => .ok (.jobj [])
      | some fd =>
          match fd.content with
          | .jsonDoc v => .ok v
          | .rawText _ => .error .jsonDecodeError
    match dataE with
    | .error e => (fs2, .error e)
    | .ok data =>
      let machine_id := bytesHex inp.machineBytes
      let mac_machine_id := bytesHex inp.macBytes
      let dev_device_id := uuid4 inp.uuidBytes
      match data with
      | .jobj kvs =>
        let kvs1 := setEntry kvs "telemetry.machineId" (.jstr machine_id)
        let kvs2 := setEntry kvs1 "telemetry.macMachineId" (.jstr mac_machine_id)
        let kvs3 := setEntry kvs2 "telemetry.devDeviceId" (.jstr dev_device_id)
        let fs3 := fs2.setFile storage_file ⟨.jsonDoc (.jobj kvs3), inp.writeMeta⟩
        (fs3, .ok (machine_id, mac_machine_id, dev_device_id))
      | _ => (fs2, .error (.typeError "object does not support item assignment"))

/-- Spec-side: a lowercase hexadecimal digit. -/
def isHexChar (c : Char) : Bool :=
  hexChars.contains c

/-- Spec-side: matches `^[0-9a-f]{64}$`. -/
def isHex64 (s : String) : Bool :=
  s.data.length = 64 && s.data.all isHexChar

/-- Spec-side: the canonical 36-character UUID version-4 textual pattern
(8-4-4-4-12 lowercase hex groups separated by dashes, version digit `4`,
variant digit in `8`, `9`, `a`, `b`). -/
def isUuid4 (s : String) : Bool :=
  match s.data with
  | c0 :: c1 :: c2 :: c3 :: c4 :: c5 :: c6 :: c7 :: d0 ::
    c8 :: c9 :: c10 :: c11 :: d1 ::
    v0 :: c12 :: c13 :: c14 :: d2 ::
    r0 :: c15 :: c16 :: c17 :: d3 ::
    c18 :: c19 :: c20 :: c21 :: c22 :: c23 :: c24 :: c25 :: c26 :: c27 :: c28 :: c29 :: [] =>
      [c0, c1, c2, c3, c4, c5, c6, c7, c8, c9, c10, c11, c12, c13, c14,
       c15, c16, c17, c18, c19, c20, c21, c22, c23, c24, c25, c26, c27,
       c28, c29].all isHexChar &&
      d0 = '-' && d1 = '-' && d2 = '-' && d3 = '-' &&
      v0 = '4' && (r0 = '8' || r0 = '9' || r0 = 'a' || r0 = 'b')
  | _ => false

/-- Spec-side: `pre` is a prefix of `s`, at the character level. -/
def strStartsWith (pre s : String) : Bool :=
  pre.data.isPrefixOf s.data

/-- The document written in a successful run: the loaded object with the three
telemetry keys assigned in order (`src/reset.py` lines 85-87). -/
def mergedDoc (kvs : List (String × JVal)) (inp : ResetInput) : List (String × JVal) :=
  setEntry (setEntry (setEntry kvs "telemetry.machineId" (.jstr (bytesHex inp.machineBytes)))
      "telemetry.macMachineId" (.jstr (bytesHex inp.macBytes)))
    "telemetry.devDeviceId" (.jstr (uuid4 inp.uuidBytes))

/-! ## Concrete fixtures for the closed instantiations -/

/-- 2024-12-10 12:34:56. -/
def t2024a : DateTime := ⟨2024, 12, 10, 12, 34, 56⟩

/-- 2024-12-10 12:34:57, one second later. -/
def t2024b : DateTime := ⟨2024, 12, 10, 12, 34, 57⟩

/-- A Linux environment with home directory `/home/u`. -/
def envLinux : Env := ⟨"Linux", none, "/home/u"⟩

/-- An unrecognized operating system. -/
def envBSD : Env := ⟨"FreeBSD", none, "/home/u"⟩

/-- Windows with the `APPDATA` variable unset. -/
def envWinNoAppdata : Env := ⟨"Windows", none, "/home/u"⟩

/-- The storage path `get_storage_file` resolves to under `envLinux`. -/
def sfLinux : String := "/home/u/.config/Cursor/User/globalStorage/storage.json"

/-- 32 zero bytes, one possible draw of `os.urandom(32)`. -/
def bytesA : List Nat := List.replicate 32 0

/-- 32 `0xff` bytes, a different draw. -/
def bytesB : List Nat := List.replicate 32 255

/-- 16 zero bytes, one possible draw of `os.urandom(16)`. -/
def bytesU : List Nat := List.replicate 16 0

/-- A fully concrete run input. -/
def inpA : ResetInput := ⟨envLinux, t2024a, bytesA, bytesA, bytesU, 7⟩

/-- A second run input: later clock, different random draws. -/
def inpB : ResetInput := ⟨envLinux, t2024b, bytesB, bytesB, bytesU, 8⟩

/-- A run input on the unrecognized OS. -/
def inpBSD : ResetInput := ⟨envBSD, t2024a, bytesA, bytesA, bytesU, 7⟩

/-- A run input on Windows without `APPDATA`. -/
def inpWin : ResetInput := ⟨envWinNoAppdata, t2024a, bytesA, bytesA, bytesU, 7⟩

/-- An empty file system. -/
def fsEmpty : FS := ⟨[], []⟩

/-- A file system whose storage file holds the object `{"A": 1}`. -/
def fsSeeded : FS := ⟨[(sfLinux, ⟨.jsonDoc (.jobj [("A", .jnum 1)]), 3⟩)], []⟩

/-- A file system whose storage file holds the text `not json`. -/
def fsRaw : FS := ⟨[(sfLinux, ⟨.rawText "not json", 3⟩)], []⟩

/-- A file system whose storage file holds the JSON array `[]`. -/
def fsArr : FS := ⟨[(sfLinux, ⟨.jsonDoc (.jarr []), 3⟩)], []⟩

/-- The state after two runs of the tool in the same wall-clock second,
starting from `fsSeeded`. -/
def fs2runs : FS := (reset_cursor_id inpA (reset_cursor_id inpA fsSeeded).1).1

/-! ## Basic lemmas about the store operations -/

theorem lookupKey_setEntry_self {α : Type} (l : List (String × α)) (k : String) (v : α) :
    lookupKey (setEntry l k v) k = some v := by
  induction l with
  | nil => simp [setEntry, lookupKey]
  | cons hd tl ih =>
    obtain ⟨k', v'⟩ := hd
    by_cases h : k' = k <;> simp [setEntry, lookupKey, h, ih]

theorem lookupKey_setEntry_ne {α : Type} (l : List (String × α)) (k k' : String) (v : α)
    (h : k' ≠ k) : lookupKey (setEntry l k v) k' = lookupKey l k' := by
  have hkk : k ≠ k' := Ne.symm h
  induction l with
  | nil => simp [setEntry, lookupKey, hkk]
  | cons hd tl ih =>
    obtain ⟨k0, v0⟩ := hd
    by_cases h0 : k0 = k
    · subst h0
      simp [setEntry, lookupKey, hkk]
    · simp [setEntry, lookupKey, h0, ih]

theorem getFile_mkdirp (fs : FS) (d p : String) :
    (fs.mkdirp d).getFile p = fs.getFile p := rfl

theorem getFile_setFile_self (fs : FS) (p : String) (fd : FileData) :
    (fs.setFile p fd).getFile p = some fd :=
  lookupKey_setEntry_self fs.files p fd

theorem getFile_setFile_ne (fs : FS) (p q : String) (fd : FileData) (h : p ≠ q) :
    (fs.setFile q fd).getFile p = fs.getFile p :=
  lookupKey_setEntry_ne fs.files q p fd h

theorem dirs_setFile (fs : FS) (p : String) (fd : FileData) :
    (fs.setFile p fd).dirs = fs.dirs := rfl

theorem files_mkdirp (fs : FS) (d : String) :
    (fs.mkdirp d).files = fs.files := rfl

/-! ## The timestamp and the backup name -/

theorem tsChars_length (t : DateTime) : (tsChars t).length = 15 := by
  simp [tsChars, pad2, pad4]

theorem data_backupName (p : String) (t : DateTime) :
    (backupName p t).data = p.data ++ ".backup_".data ++ tsChars t := by
  simp [backupName, tsString, String.mk]

theorem backupName_ne_self (p : String) (t : DateTime) : backupName p t ≠ p := by
  intro h
  have h2 := congrArg (fun s => s.data.length) h
  simp [data_backupName, tsChars_length] at h2

/-! ## The generated identifiers -/

theorem isHexChar_hexDigit (n : Nat) : isHexChar (hexDigit n) = true := by
  have hlt : n % 16 < 16 := Nat.mod_lt _ (by omega)
  have h : ∀ m, m < 16 → isHexChar (hexChars.getD m '0') = true := by decide
  exact h (n % 16) hlt

theorem bytesHexChars_length (bs : List Nat) :
    (bytesHexChars bs).length = 2 * bs.length := by
  induction bs with
  | nil => rfl
  | cons b bs ih => simp [bytesHexChars, ih]; omega

theorem bytesHexChars_all_hex (bs : List Nat) :
    ∀ c ∈ bytesHexChars bs, isHexChar c = true := by
  induction bs with
  | nil => simp [bytesHexChars]
  | cons b bs ih =>
    simp only [bytesHexChars, List.mem_cons]
    rintro c (rfl | rfl | hc)
    · exact isHexChar_hexDigit _
    · exact isHexChar_hexDigit _
    · exact ih c hc

theorem isHex64_bytesHex (bs : List Nat) (h : bs.length = 32) :
    isHex64 (bytesHex bs) = true := by
  simp only [isHex64, bytesHex, Bool.and_eq_true, decide_eq_true_eq, List.all_eq_true]
  exact ⟨by simp [String.mk, bytesHexChars_length, h], fun c hc => bytesHexChars_all_hex bs c hc⟩

theorem hexDigit_four : hexDigit 4 = '4' := rfl

theorem isUuid4_uuid4 (bs : List Nat) (h : bs.length = 16) :
    isUuid4 (uuid4 bs) = true := by
  match bs, h with
  | [b0, b1, b2, b3, b4, b5, b6, b7, b8, b9, b10, b11, b12, b13, b14, b15], _ =>
    have h6 : (b6 % 16 + 64) / 16 = 4 := by omega
    have h8a : 8 ≤ (b8 % 64 + 128) / 16 := by omega
    have h8b : (b8 % 64 + 128) / 16 ≤ 11 := by omega
    have hvar : hexDigit ((b8 % 64 + 128) / 16) = '8' ∨ hexDigit ((b8 % 64 + 128) / 16) = '9' ∨
        hexDigit ((b8 % 64 + 128) / 16) = 'a' ∨ hexDigit ((b8 % 64 + 128) / 16) = 'b' := by
      set m := (b8 % 64 + 128) / 16 with hm
      interval_cases m <;> decide
    simp only [uuid4, uuid4Chars, bytesHexChars, List.cons_append, List.nil_append]
    simp only [isUuid4, List.all_cons, List.all_nil, Bool.and_eq_true, decide_eq_true_eq]
    rw [h6]
    rcases hvar with hv | hv | hv | hv <;>
      simp only [hv, hexDigit_four, isHexChar_hexDigit, and_true, true_and] <;> decide

/-! ## Run descriptions

One lemma per control-flow outcome of `reset_cursor_id`, describing the final
file-system state and the result explicitly.  The claims instantiate these. -/

theorem reset_eq_of_obj (inp : ResetInput) (fs : FS) (sf : String)
    (kvs : List (String × JVal)) (m : Nat)
    (hsf : get_storage_file inp.env = .ok sf)
    (hfile : fs.getFile sf = some ⟨.jsonDoc (.jobj kvs), m⟩) :
    reset_cursor_id inp fs =
      (((fs.mkdirp (parentDir sf)).setFile (backupName sf inp.now)
            ⟨.jsonDoc (.jobj kvs), m⟩).setFile sf
          ⟨.jsonDoc (.jobj (mergedDoc kvs inp)), inp.writeMeta⟩,
        .ok (bytesHex inp.machineBytes, bytesHex inp.macBytes, uuid4 inp.uuidBytes)) := by
  have h1 : (fs.mkdirp (parentDir sf)).getFile sf = some ⟨.jsonDoc (.jobj kvs), m⟩ := hfile
  have h2 : ((fs.mkdirp (parentDir sf)).setFile (backupName sf inp.now)
      ⟨.jsonDoc (.jobj kvs), m⟩).getFile sf = some ⟨.jsonDoc (.jobj kvs), m⟩ := by
    rw [getFile_setFile_ne _ _ _ _ (Ne.symm (backupName_ne_self sf inp.now))]
    exact h1
  simp only [reset_cursor_id, hsf, backup_file, h1, h2, mergedDoc]

theorem reset_eq_of_absent (inp : ResetInput) (fs : FS) (sf : String)
    (hsf : get_storage_file inp.env = .ok sf)
    (hfile : fs.getFile sf = none) :
    reset_cursor_id inp fs =
      ((fs.mkdirp (parentDir sf)).setFile sf
          ⟨.jsonDoc (.jobj (mergedDoc [] inp)), inp.writeMeta⟩,
        .ok (bytesHex inp.machineBytes, bytesHex inp.macBytes, uuid4 inp.uuidBytes)) := by
  have h1 : (fs.mkdirp (parentDir sf)).getFile sf = none := hfile
  simp only [reset_cursor_id, hsf, backup_file, h1, mergedDoc, setEntry]

theorem reset_eq_of_rawText (inp : ResetInput) (fs : FS) (sf : String) (s : String) (m : Nat)
    (hsf : get_storage_file inp.env = .ok sf)
    (hfile : fs.getFile sf = some ⟨.rawText s, m⟩) :
    reset_cursor_id inp fs =
      ((fs.mkdirp (parentDir sf)).setFile (backupName sf inp.now) ⟨.rawText s, m⟩,
        .error .jsonDecodeError) := by
  have h1 : (fs.mkdirp (parentDir sf)).getFile sf = some ⟨.rawText s, m⟩ := hfile
  have h2 : ((fs.mkdirp (parentDir sf)).setFile (backupName sf inp.now)
      ⟨.rawText s, m⟩).getFile sf = some ⟨.rawText s, m⟩ := by
    rw [getFile_setFile_ne _ _ _ _ (Ne.symm (backupName_ne_self sf inp.now))]
    exact h1
  simp only [reset_cursor_id, hsf, backup_file, h1, h2]

theorem reset_eq_of_error (inp : ResetInput) (fs : FS) (e : PyError)
    (hsf : get_storage_file inp.env = .error e) :
    reset_cursor_id inp fs = (fs, .error e) := by
  simp only [reset_cursor_id, hsf]

theorem reset_eq_of_nonobj (inp : ResetInput) (fs : FS) (sf : String) (v : JVal) (m : Nat)
    (hsf : get_storage_file inp.env = .ok sf)
    (hfile : fs.getFile sf = some ⟨.jsonDoc v, m⟩)
    (hv : v.isObj = false) :
    reset_cursor_id inp fs =
      ((fs.mkdirp (parentDir sf)).setFile (backupName sf inp.now) ⟨.jsonDoc v, m⟩,
        .error (.typeError "object does not support item assignment")) := by
  have h1 : (fs.mkdirp (parentDir sf)).getFile sf = some ⟨.jsonDoc v, m⟩ := hfile
  have h2 : ((fs.mkdirp (parentDir sf)).setFile (backupName sf inp.now)
      ⟨.jsonDoc v, m⟩).getFile sf = some ⟨.jsonDoc v, m⟩ := by
    rw [getFile_setFile_ne _ _ _ _ (Ne.symm (backupName_ne_self sf inp.now))]
    exact h1
  cases v
  case jobj kvs => simp [JVal.isObj] at hv
  all_goals simp only [reset_cursor_id, hsf, backup_file, h1, h2]

theorem reset_ok_ids (inp : ResetInput) (fs fs' : FS) (ids : String × String × String)
    (h : reset_cursor_id inp fs = (fs', .ok ids)) :
    ids = (bytesHex inp.machineBytes, bytesHex inp.macBytes, uuid4 inp.uuidBytes) := by
  rcases hg : get_storage_file inp.env with e | sf
  · rw [reset_eq_of_error inp fs e hg] at h
    simp at h
  · rcases hf : fs.getFile sf with _ | ⟨c, m⟩
    · rw [reset_eq_of_absent inp fs sf hg hf] at h
      simp only [Prod.mk.injEq, Except.ok.injEq] at h
      exact h.2.symm
    · cases c with
      | rawText s =>
        rw [reset_eq_of_rawText inp fs sf s m hg hf] at h
        simp at h
      | jsonDoc v =>
        cases hv : v.isObj with
        | false =>
          rw [reset_eq_of_nonobj inp fs sf v m hg hf hv] at h
          simp at h
        | true =>
          cases v <;> simp [JVal.isObj] at hv
          case jobj kvs =>
            rw [reset_eq_of_obj inp fs sf kvs m hg hf] at h
            simp only [Prod.mk.injEq, Except.ok.injEq] at h
            exact h.2.symm

theorem mem_dirs_mkdirp (fs : FS) (d : String) : d ∈ (fs.mkdirp d).dirs := by
  simp only [FS.mkdirp]
  by_cases h : d ∈ fs.dirs <;> simp [h]

theorem lookupKey_isSome_mem {α : Type} (l : List (String × α)) (p : String)
    (h : (lookupKey l p).isSome = true) : p ∈ l.map Prod.fst := by
  induction l with
  | nil => simp [lookupKey] at h
  | cons hd tl ih =>
    obtain ⟨k, v⟩ := hd
    by_cases hk : k = p
    · simp [hk]
    · simp only [lookupKey, hk, if_false] at h
      exact List.mem_cons_of_mem _ (ih h)

theorem mem_keys_of_fileExists (fs : FS) (p : String) (h : fs.fileExists p = true) :
    p ∈ fs.files.map Prod.fst :=
  lookupKey_isSome_mem fs.files p h

theorem isDigit_digitChar (n : Nat) : (digitChar n).isDigit = true := by
  have h : ∀ m, m < 10 → (hexChars.getD m '0').isDigit = true := by decide
  have h1 : n % 10 % 16 = n % 10 := by omega
  unfold digitChar hexDigit
  rw [h1]
  exact h _ (Nat.mod_lt _ (by omega))

theorem hexDigit_inj (a b : Nat) (ha : a < 16) (hb : b < 16)
    (h : hexDigit a = hexDigit b) : a = b := by
  have hgen : ∀ x, x < 16 → ∀ y, y < 16 → hexChars.getD x '0' = hexChars.getD y '0' → x = y := by
    decide
  have ha' : a % 16 = a := Nat.mod_eq_of_lt ha
  have hb' : b % 16 = b := Nat.mod_eq_of_lt hb
  unfold hexDigit at h
  rw [ha', hb'] at h
  exact hgen a ha b hb h

theorem bytesHexChars_inj (b1 b2 : List Nat) (h1 : ∀ b ∈ b1, b < 256) (h2 : ∀ b ∈ b2, b < 256)
    (h : bytesHexChars b1 = bytesHexChars b2) : b1 = b2 := by
  induction b1 generalizing b2 with
  | nil =>
    cases b2 with
    | nil => rfl
    | cons y ys => simp [bytesHexChars] at h
  | cons x xs ih =>
    cases b2 with
    | nil => simp [bytesHexChars] at h
    | cons y ys =>
      simp only [bytesHexChars, List.cons.injEq] at h
      obtain ⟨hh, hl, hrest⟩ := h
      have hx := h1 x (by simp)
      have hy := h2 y (by simp)
      have e1 : x / 16 = y / 16 := hexDigit_inj _ _ (by omega) (by omega) hh
      have e2 : x % 16 = y % 16 := hexDigit_inj _ _ (by omega) (by omega) hl
      have hxy : x = y := by omega
      subst hxy
      rw [ih ys (fun b hb => h1 b (List.mem_cons_of_mem _ hb))
        (fun b hb => h2 b (List.mem_cons_of_mem _ hb)) hrest]

theorem bytesHex_ne (b1 b2 : List Nat) (h1 : ∀ b ∈ b1, b < 256) (h2 : ∀ b ∈ b2, b < 256)
    (hne : b1 ≠ b2) : bytesHex b1 ≠ bytesHex b2 := by
  intro h
  exact hne (bytesHexChars_inj b1 b2 h1 h2 (congrArg String.data h))

theorem backupName_ne_of_ts_ne (p : String) (t1 t2 : DateTime)
    (h : tsString t1 ≠ tsString t2) : backupName p t1 ≠ backupName p t2 := by
  intro he
  apply h
  have hd := congrArg String.data he
  simp only [data_backupName] at hd
  exact String.ext (List.append_cancel_left hd)

theorem dropWhile_append_of_ne_slash (l1 l2 : List Char) (h : ∀ c ∈ l1, c ≠ '/') :
    (l1 ++ l2).dropWhile (fun c => c ≠ '/') = l2.dropWhile (fun c => c ≠ '/') := by
  induction l1 with
  | nil => rfl
  | cons c cs ih =>
    have hc : (decide (c ≠ '/')) = true := decide_eq_true (h c (by simp))
    rw [List.cons_append, List.dropWhile_cons]
    simp only [hc, if_true]
    exact ih (fun x hx => h x (by simp [hx]))

theorem hexDigit_ne_slash (n : Nat) : hexDigit n ≠ '/' := by
  have h : ∀ m, m < 16 → hexChars.getD m '0' ≠ '/' := by decide
  exact h _ (Nat.mod_lt _ (by omega))

theorem digitChar_ne_slash (n : Nat) : digitChar n ≠ '/' :=
  hexDigit_ne_slash _

theorem pad2_ne_slash (n : Nat) : ∀ c ∈ pad2 n, c ≠ '/' := by
  intro c hc
  simp only [pad2, List.mem_cons, List.not_mem_nil, or_false] at hc
  rcases hc with rfl | rfl <;> exact digitChar_ne_slash _

theorem pad4_ne_slash (n : Nat) : ∀ c ∈ pad4 n, c ≠ '/' := by
  intro c hc
  simp only [pad4, List.mem_cons, List.not_mem_nil, or_false] at hc
  rcases hc with rfl | rfl | rfl | rfl <;> exact digitChar_ne_slash _

theorem tsChars_ne_slash (t : DateTime) : ∀ c ∈ tsChars t, c ≠ '/' := by
  intro c hc
  rw [tsChars] at hc
  rcases List.mem_append.mp hc with h | h
  · rcases List.mem_append.mp h with h | h
    · rcases List.mem_append.mp h with h | h
      · exact pad4_ne_slash _ c h
      · exact pad2_ne_slash _ c h
    · exact pad2_ne_slash _ c h
  · rcases List.mem_cons.mp h with rfl | h
    · decide
    · rcases List.mem_append.mp h with h | h
      · rcases List.mem_append.mp h with h | h
        · exact pad2_ne_slash _ c h
        · exact pad2_ne_slash _ c h
      · exact pad2_ne_slash _ c h

theorem parentDir_backupName (p : String) (t : DateTime) :
    parentDir (backupName p t) = parentDir p := by
  have hts : ∀ c ∈ (tsChars t).reverse, c ≠ '/' := fun c hc =>
    tsChars_ne_slash t c (List.mem_reverse.mp hc)
  have hbk : ∀ c ∈ (".backup_".data).reverse, c ≠ '/' := by decide
  unfold parentDir parentChars
  rw [data_backupName, List.reverse_append, List.reverse_append,
    dropWhile_append_of_ne_slash _ _ hts, dropWhile_append_of_ne_slash _ _ hbk]

theorem mergedDoc_nil (inp : ResetInput) :
    mergedDoc [] inp =
      [("telemetry.machineId", .jstr (bytesHex inp.machineBytes)),
       ("telemetry.macMachineId", .jstr (bytesHex inp.macBytes)),
       ("telemetry.devDeviceId", .jstr (uuid4 inp.uuidBytes))] := by
  simp [mergedDoc, setEntry]

/-! ## The claims -/

/-- Claim C3: for every operating-system identifier outside
{Windows, Darwin, Linux}, the run fails with the unsupported-platform
`OSError` and returns the file system exactly as it was: no directory
creation, no backup, no read, no write. -/
theorem C3_unsupported_platform_no_effects (inp : ResetInput) (fs : FS)
    (hw : inp.env.system ≠ "Windows") (hd : inp.env.system ≠ "Darwin")
    (hl : inp.env.system ≠ "Linux") :
    reset_cursor_id inp fs =
      (fs, .error (.osError ("Unsupported operating system: " ++ inp.env.system))) := by
  apply reset_eq_of_error
  unfold get_storage_file
  rw [if_neg hw, if_neg hd, if_neg hl]

/-- Closed instance of C3 on the simulated OS `FreeBSD`. -/
theorem C3_unsupported_platform_no_effects_witness :
    reset_cursor_id inpBSD fsEmpty =
      (fsEmpty, .error (.osError ("Unsupported operating system: " ++ inpBSD.env.system))) :=
  C3_unsupported_platform_no_effects inpBSD fsEmpty (by decide) (by decide) (by decide)

/-- Claim C9: on Windows with `APPDATA` unset, the run does not raise the
unsupported-platform `OSError`; it fails with a `TypeError` while building
the path from the missing value, touching nothing; with `APPDATA` set the
documented Windows path is returned. -/
theorem C9_windows_appdata_unset (inp : ResetInput) (fs : FS)
    (hw : inp.env.system = "Windows") (ha : inp.env.appdata = none) :
    reset_cursor_id inp fs =
      (fs, .error (.typeError "argument should be a str or an os.PathLike object, not NoneType")) ∧
    ∀ a : String, get_storage_file ⟨"Windows", some a, inp.env.home⟩ =
      .ok (a ++ "/Cursor/User/globalStorage/storage.json") := by
  refine ⟨?_, fun a => rfl⟩
  apply reset_eq_of_error
  unfold get_storage_file
  rw [if_pos hw, ha]

/-- Closed instance of C9: the concrete Windows run without `APPDATA`. -/
theorem C9_windows_appdata_unset_witness :
    reset_cursor_id inpWin fsEmpty =
      (fsEmpty, .error (.typeError "argument should be a str or an os.PathLike object, not NoneType")) :=
  (C9_windows_appdata_unset inpWin fsEmpty rfl rfl).1

/-- Claim C5: `backup_file` is a no-op when the path does not exist, and when
the path exists it creates exactly one sibling file `<path>.backup_<timestamp>`
carrying the source's content and metadata, leaving every other path
untouched. -/
theorem C5_backup_contract (fs : FS) (p : String) (t : DateTime) :
    (fs.fileExists p = false → backup_file fs p t = fs) ∧
    ∀ fd, fs.getFile p = some fd →
      (backup_file fs p t).getFile (backupName p t) = some fd ∧
      ∀ q, q ≠ backupName p t → (backup_file fs p t).getFile q = fs.getFile q := by
  constructor
  · intro h
    rw [FS.fileExists] at h
    unfold backup_file
    cases hg : fs.getFile p with
    | none => rfl
    | some fd => rw [hg] at h; simp at h
  · intro fd hfd
    unfold backup_file
    rw [hfd]
    exact ⟨getFile_setFile_self _ _ _, fun q hq => getFile_setFile_ne _ _ _ _ hq⟩

/-- Closed instance of C5: no-op on the empty file system, faithful copy of
the seeded file. -/
theorem C5_backup_contract_witness :
    backup_file fsEmpty sfLinux t2024a = fsEmpty ∧
    (backup_file fsRaw sfLinux t2024a).getFile (backupName sfLinux t2024a) =
      some ⟨.rawText "not json", 3⟩ :=
  ⟨(C5_backup_contract fsEmpty sfLinux t2024a).1 rfl,
   ((C5_backup_contract fsRaw sfLinux t2024a).2 _ rfl).1⟩

/-- Claim C2: when the configuration file does not pre-exist, the run starts
from the empty mapping and the saved document holds exactly the three
telemetry keys. -/
theorem C2_fresh_document (inp : ResetInput) (fs : FS) (sf : String)
    (hsf : get_storage_file inp.env = .ok sf)
    (hfile : fs.getFile sf = none) :
    ∃ fs', reset_cursor_id inp fs =
        (fs', .ok (bytesHex inp.machineBytes, bytesHex inp.macBytes, uuid4 inp.uuidBytes)) ∧
      fs'.getFile sf = some ⟨.jsonDoc (.jobj
          [("telemetry.machineId", .jstr (bytesHex inp.machineBytes)),
           ("telemetry.macMachineId", .jstr (bytesHex inp.macBytes)),
           ("telemetry.devDeviceId", .jstr (uuid4 inp.uuidBytes))]), inp.writeMeta⟩ := by
  refine ⟨_, reset_eq_of_absent inp fs sf hsf hfile, ?_⟩
  rw [← mergedDoc_nil inp]
  exact getFile_setFile_self _ _ _

/-- Closed instance of C2: first run on an empty file system. -/
theorem C2_fresh_document_witness :
    ∃ fs', reset_cursor_id inpA fsEmpty =
        (fs', .ok (bytesHex bytesA, bytesHex bytesA, uuid4 bytesU)) ∧
      fs'.getFile sfLinux = some ⟨.jsonDoc (.jobj
          [("telemetry.machineId", .jstr (bytesHex bytesA)),
           ("telemetry.macMachineId", .jstr (bytesHex bytesA)),
           ("telemetry.devDeviceId", .jstr (uuid4 bytesU))]), 7⟩ :=
  C2_fresh_document inpA fsEmpty sfLinux rfl rfl

/-- Claim C1: when the configuration file pre-exists and parses as a JSON
object, the run succeeds, the saved document is the loaded document with the
three telemetry keys overwritten by the freshly generated values, and every
other key is unmodified. -/
theorem C1_targeted_merge (inp : ResetInput) (fs : FS) (sf : String)
    (kvs : List (String × JVal)) (m : Nat)
    (hsf : get_storage_file inp.env = .ok sf)
    (hfile : fs.getFile sf = some ⟨.jsonDoc (.jobj kvs), m⟩) :
    ∃ fs', reset_cursor_id inp fs =
        (fs', .ok (bytesHex inp.machineBytes, bytesHex inp.macBytes, uuid4 inp.uuidBytes)) ∧
      fs'.getFile sf = some ⟨.jsonDoc (.jobj (mergedDoc kvs inp)), inp.writeMeta⟩ ∧
      lookupKey (mergedDoc kvs inp) "telemetry.machineId" =
        some (.jstr (bytesHex inp.machineBytes)) ∧
      lookupKey (mergedDoc kvs inp) "telemetry.macMachineId" =
        some (.jstr (bytesHex inp.macBytes)) ∧
      lookupKey (mergedDoc kvs inp) "telemetry.devDeviceId" =
        some (.jstr (uuid4 inp.uuidBytes)) ∧
      ∀ k, k ∉ telemetryKeys → lookupKey (mergedDoc kvs inp) k = lookupKey kvs k := by
  refine ⟨_, reset_eq_of_obj inp fs sf kvs m hsf hfile,
    getFile_setFile_self _ _ _, ?_, ?_, ?_, ?_⟩
  · unfold mergedDoc
    rw [lookupKey_setEntry_ne _ _ _ _ (by decide), lookupKey_setEntry_ne _ _ _ _ (by decide)]
    exact lookupKey_setEntry_self _ _ _
  · unfold mergedDoc
    rw [lookupKey_setEntry_ne _ _ _ _ (by decide)]
    exact lookupKey_setEntry_self _ _ _
  · exact lookupKey_setEntry_self _ _ _
  · intro k hk
    simp only [telemetryKeys, List.mem_cons, List.not_mem_nil, or_false, not_or] at hk
    obtain ⟨h1, h2, h3⟩ := hk
    unfold mergedDoc
    rw [lookupKey_setEntry_ne _ _ _ _ h3, lookupKey_setEntry_ne _ _ _ _ h2,
      lookupKey_setEntry_ne _ _ _ _ h1]

/-- Closed instance of C1: the unrelated key `A` survives the reset of the
seeded file. -/
theorem C1_targeted_merge_witness :
    (reset_cursor_id inpA fsSeeded).1.getFile sfLinux =
      some ⟨.jsonDoc (.jobj (mergedDoc [("A", .jnum 1)] inpA)), 7⟩ ∧
    lookupKey (mergedDoc [("A", .jnum 1)] inpA) "A" = some (.jnum 1) := by
  obtain ⟨fs', h1, h2, _, _, _, hframe⟩ :=
    C1_targeted_merge inpA fsSeeded sfLinux [("A", .jnum 1)] 3 rfl rfl
  constructor
  · rw [h1]
    exact h2
  · rw [hframe "A" (by decide)]
    rfl

/-- Claim C4: when the configuration file exists with non-JSON content, the
run fails with the JSON decode error, the file keeps its malformed content,
and a backup holding that content exists — the backup step precedes the
load step. -/
theorem C4_malformed_config (inp : ResetInput) (fs : FS) (sf s : String) (m : Nat)
    (hsf : get_storage_file inp.env = .ok sf)
    (hfile : fs.getFile sf = some ⟨.rawText s, m⟩) :
    ∃ fs', reset_cursor_id inp fs = (fs', .error .jsonDecodeError) ∧
      fs'.getFile sf = some ⟨.rawText s, m⟩ ∧
      fs'.getFile (backupName sf inp.now) = some ⟨.rawText s, m⟩ := by
  refine ⟨_, reset_eq_of_rawText inp fs sf s m hsf hfile, ?_, getFile_setFile_self _ _ _⟩
  rw [getFile_setFile_ne _ _ _ _ (Ne.symm (backupName_ne_self sf inp.now))]
  exact hfile

/-- Closed instance of C4: the file pre-seeded with the text `not json`. -/
theorem C4_malformed_config_witness :
    (reset_cursor_id inpA fsRaw).2 = .error .jsonDecodeError ∧
    (reset_cursor_id inpA fsRaw).1.getFile sfLinux = some ⟨.rawText "not json", 3⟩ ∧
    (reset_cursor_id inpA fsRaw).1.getFile (backupName sfLinux t2024a) =
      some ⟨.rawText "not json", 3⟩ := by
  obtain ⟨fs', h1, h2, h3⟩ := C4_malformed_config inpA fsRaw sfLinux "not json" 3 rfl rfl
  rw [h1]
  exact ⟨rfl, h2, h3⟩

/-- Claim C10: when the file holds valid JSON whose top level is not an
object, loading succeeds (no decode error) and the run fails with a
`TypeError` at the merge step, after the backup and the directory creation
and before any write to the configuration file. -/
theorem C10_nonobject_document (inp : ResetInput) (fs : FS) (sf : String) (v : JVal) (m : Nat)
    (hsf : get_storage_file inp.env = .ok sf)
    (hfile : fs.getFile sf = some ⟨.jsonDoc v, m⟩)
    (hv : v.isObj = false) :
    ∃ fs', reset_cursor_id inp fs =
        (fs', .error (.typeError "object does not support item assignment")) ∧
      fs'.getFile sf = some ⟨.jsonDoc v, m⟩ ∧
      fs'.getFile (backupName sf inp.now) = some ⟨.jsonDoc v, m⟩ ∧
      parentDir sf ∈ fs'.dirs := by
  refine ⟨_, reset_eq_of_nonobj inp fs sf v m hsf hfile hv, ?_,
    getFile_setFile_self _ _ _, ?_⟩
  · rw [getFile_setFile_ne _ _ _ _ (Ne.symm (backupName_ne_self sf inp.now))]
    exact hfile
  · rw [dirs_setFile]
    exact mem_dirs_mkdirp fs (parentDir sf)

/-- Closed instance of C10: the file pre-seeded with the JSON array `[]`. -/
theorem C10_nonobject_document_witness :
    (reset_cursor_id inpA fsArr).2 = .error (.typeError "object does not support item assignment") ∧
    (reset_cursor_id inpA fsArr).1.getFile sfLinux = some ⟨.jsonDoc (.jarr []), 3⟩ ∧
    (reset_cursor_id inpA fsArr).1.getFile (backupName sfLinux t2024a) =
      some ⟨.jsonDoc (.jarr []), 3⟩ := by
  obtain ⟨fs', h1, h2, h3, _⟩ :=
    C10_nonobject_document inpA fsArr sfLinux (.jarr []) 3 rfl rfl rfl
  rw [h1]
  exact ⟨rfl, h2, h3⟩

/-- Claim C6: in every run that reaches the write, the generated `machineId`
and `macMachineId` match `^[0-9a-f]{64}$` and the generated `devDeviceId`
matches the canonical 36-character UUID version-4 pattern, given that the
random source supplied 32, 32 and 16 bytes. -/
theorem C6_identifier_formats (inp : ResetInput) (fs fs' : FS)
    (ids : String × String × String)
    (hm : inp.machineBytes.length = 32) (hmac : inp.macBytes.length = 32)
    (hu : inp.uuidBytes.length = 16)
    (h : reset_cursor_id inp fs = (fs', .ok ids)) :
    isHex64 ids.1 = true ∧ isHex64 ids.2.1 = true ∧ isUuid4 ids.2.2 = true := by
  have he := reset_ok_ids inp fs fs' ids h
  subst he
  exact ⟨isHex64_bytesHex _ hm, isHex64_bytesHex _ hmac, isUuid4_uuid4 _ hu⟩

/-- Closed instance of C6 on the concrete first run. -/
theorem C6_identifier_formats_witness :
    isHex64 (bytesHex bytesA) = true ∧ isHex64 (bytesHex bytesA) = true ∧
    isUuid4 (uuid4 bytesU) = true :=
  C6_identifier_formats inpA fsEmpty (reset_cursor_id inpA fsEmpty).1
    (bytesHex bytesA, bytesHex bytesA, uuid4 bytesU) rfl rfl rfl rfl

/-- Claim C7 counterexample: at the concrete path `storage.json` and clock
2024-12-10 12:34:56 there is no 14-digit string making up the backup suffix:
the actual suffix after `.backup_` is `20241210_123456`, 15 characters. -/
theorem C7_cex_suffix_not_14_digits :
    ¬ ∃ d : String, d.data.length = 14 ∧ d.data.all Char.isDigit = true ∧
      backupName "storage.json" t2024a = "storage.json" ++ ".backup_" ++ d := by
  rintro ⟨d, hlen, _, heq⟩
  have h1 : (backupName "storage.json" t2024a).data.length = 35 := by rfl
  have h2 : ("storage.json" ++ ".backup_" ++ d).data.length = 20 + d.data.length := by
    rw [String.data_append, String.data_append, List.length_append, List.length_append]
    have e1 : ("storage.json".data).length = 12 := rfl
    have e2 : (".backup_".data).length = 8 := rfl
    omega
  rw [heq, h2] at h1
  omega

/-- Claim C7 amended: every backup file is named by appending `.backup_`
followed by the 15-character timestamp `YYYYMMDD_HHMMSS` — eight digits, an
underscore, six digits — and lies in the same directory as the original. -/
theorem C7_backup_naming (p : String) (t : DateTime) :
    ∃ dpart tpart : String,
      dpart.data.length = 8 ∧ dpart.data.all Char.isDigit = true ∧
      tpart.data.length = 6 ∧ tpart.data.all Char.isDigit = true ∧
      backupName p t = p ++ ".backup_" ++ dpart ++ "_" ++ tpart ∧
      parentDir (backupName p t) = parentDir p := by
  refine ⟨String.mk (pad4 t.year ++ pad2 t.month ++ pad2 t.day),
    String.mk (pad2 t.hour ++ pad2 t.minute ++ pad2 t.second),
    ?_, ?_, ?_, ?_, ?_, parentDir_backupName p t⟩
  · simp [pad4, pad2]
  · simp [pad4, pad2, isDigit_digitChar]
  · simp [pad2]
  · simp [pad2, isDigit_digitChar]
  · apply String.ext
    have hu : ("_" : String).data = ['_'] := rfl
    simp only [data_backupName, String.data_append, tsChars, tsString, hu]
    simp [List.append_assoc]

/-- Claim C8 counterexample: two successive runs within the same wall-clock
second (the file existing before each) reuse the same backup name, so the
disk afterwards holds a single backup file, not two distinct ones. -/
theorem C8_cex_same_second_runs :
    ¬ ∃ p1 p2 : String, p1 ≠ p2 ∧
      strStartsWith (sfLinux ++ ".backup_") p1 = true ∧ fs2runs.fileExists p1 = true ∧
      strStartsWith (sfLinux ++ ".backup_") p2 = true ∧ fs2runs.fileExists p2 = true := by
  rintro ⟨p1, p2, hne, hb1, he1, hb2, he2⟩
  have hkeys : fs2runs.files.map Prod.fst = [sfLinux, backupName sfLinux t2024a] := by rfl
  have h1 := mem_keys_of_fileExists _ _ he1
  have h2 := mem_keys_of_fileExists _ _ he2
  rw [hkeys] at h1 h2
  have hsf : strStartsWith (sfLinux ++ ".backup_") sfLinux = false := by decide
  simp only [List.mem_cons, List.not_mem_nil, or_false] at h1 h2
  rcases h1 with rfl | rfl
  · simp [hsf] at hb1
  · rcases h2 with rfl | rfl
    · simp [hsf] at hb2
    · exact hne rfl

/-- Claim C8 amended: two successive runs on a pre-existing object document
that draw different random bytes and whose backup timestamps differ produce
different machineId and macMachineId values and leave two distinct backup
files on disk. -/
theorem C8_two_runs_distinct (i1 i2 : ResetInput) (fs0 fs1 fs2 : FS) (sf : String)
    (out1 out2 : String × String × String) (kvs1 : List (String × JVal)) (m1 : Nat)
    (henv1 : get_storage_file i1.env = .ok sf) (henv2 : get_storage_file i2.env = .ok sf)
    (hfile1 : fs0.getFile sf = some ⟨.jsonDoc (.jobj kvs1), m1⟩)
    (hrun1 : reset_cursor_id i1 fs0 = (fs1, .ok out1))
    (hrun2 : reset_cursor_id i2 fs1 = (fs2, .ok out2))
    (hts : tsString i1.now ≠ tsString i2.now)
    (hmb : i1.machineBytes ≠ i2.machineBytes)
    (hmacb : i1.macBytes ≠ i2.macBytes)
    (hv1 : ∀ b ∈ i1.machineBytes, b < 256) (hv2 : ∀ b ∈ i2.machineBytes, b < 256)
    (hw1 : ∀ b ∈ i1.macBytes, b < 256) (hw2 : ∀ b ∈ i2.macBytes, b < 256) :
    out1.1 ≠ out2.1 ∧ out1.2.1 ≠ out2.2.1 ∧
    backupName sf i1.now ≠ backupName sf i2.now ∧
    fs2.fileExists (backupName sf i1.now) = true ∧
    fs2.fileExists (backupName sf i2.now) = true := by
  have hd1 := reset_eq_of_obj i1 fs0 sf kvs1 m1 henv1 hfile1
  rw [hrun1] at hd1
  simp only [Prod.mk.injEq, Except.ok.injEq] at hd1
  obtain ⟨hfs1, hout1⟩ := hd1
  have hfile2 : fs1.getFile sf =
      some ⟨.jsonDoc (.jobj (mergedDoc kvs1 i1)), i1.writeMeta⟩ := by
    rw [hfs1]
    exact getFile_setFile_self _ _ _
  have hd2 := reset_eq_of_obj i2 fs1 sf (mergedDoc kvs1 i1) i1.writeMeta henv2 hfile2
  rw [hrun2] at hd2
  simp only [Prod.mk.injEq, Except.ok.injEq] at hd2
  obtain ⟨hfs2, hout2⟩ := hd2
  have hbn : backupName sf i1.now ≠ backupName sf i2.now :=
    backupName_ne_of_ts_ne sf i1.now i2.now hts
  refine ⟨?_, ?_, hbn, ?_, ?_⟩
  · rw [hout1, hout2]
    exact bytesHex_ne _ _ hv1 hv2 hmb
  · rw [hout1, hout2]
    exact bytesHex_ne _ _ hw1 hw2 hmacb
  · rw [FS.fileExists, hfs2,
      getFile_setFile_ne _ _ _ _ (backupName_ne_self sf i1.now),
      getFile_setFile_ne _ _ _ _ hbn, getFile_mkdirp, hfs1,
      getFile_setFile_ne _ _ _ _ (backupName_ne_self sf i1.now),
      getFile_setFile_self]
    rfl
  · rw [FS.fileExists, hfs2,
      getFile_setFile_ne _ _ _ _ (backupName_ne_self sf i2.now),
      getFile_setFile_self]
    rfl

/-- Closed instance of amended C8: the two concrete runs one second apart
with different draws. -/
theorem C8_two_runs_distinct_witness :
    bytesHex bytesA ≠ bytesHex bytesB ∧ bytesHex bytesA ≠ bytesHex bytesB ∧
    backupName sfLinux t2024a ≠ backupName sfLinux t2024b ∧
    ((reset_cursor_id inpB (reset_cursor_id inpA fsSeeded).1).1).fileExists
      (backupName sfLinux t2024a) = true ∧
    ((reset_cursor_id inpB (reset_cursor_id inpA fsSeeded).1).1).fileExists
      (backupName sfLinux t2024b) = true :=
  C8_two_runs_distinct inpA inpB fsSeeded (reset_cursor_id inpA fsSeeded).1
    (reset_cursor_id inpB (reset_cursor_id inpA fsSeeded).1).1 sfLinux
    (bytesHex bytesA, bytesHex bytesA, uuid4 bytesU)
    (bytesHex bytesB, bytesHex bytesB, uuid4 bytesU)
    [("A", .jnum 1)] 3 rfl rfl rfl (by rfl) (by rfl) (by decide) (by decide)
    (by decide) (by decide) (by decide) (by decide) (by decide)
